import Mathlib

/-!
Verification of git-remote-sync: a tool that packages files changed between
two git revisions into a numbered staging directory with a JSON manifest
(packer.py), uploads them to an FTP server recreating subdirectories
(uploader.py), and drives both from a menu-driven pipeline
(git_remote_sync.py).  The definitions below are a shallow embedding of the
three Python modules; external effects (git subprocesses, the FTP server,
the filesystem, interactive input) are explicit parameters or oracle values.
-/

namespace GitRemoteSync

/-! ## Python string primitives used by the sources -/

/-- Python `str.strip()` whitespace test: space, tab, newline, carriage
return, vertical tab, form feed. -/
def pyIsSpace (c : Char) : Bool :=
  c == ' ' || c == '\t' || c == '\n' || c == '\x0d' || c == '\x0b' || c == '\x0c'

/-- Python `str.strip()`: drop leading and trailing whitespace. -/
def pyStrip (s : String) : String :=
  String.mk (((s.toList.dropWhile pyIsSpace).reverse.dropWhile pyIsSpace).reverse)

/-- Python `str.lower()` restricted to ASCII case mapping. -/
def pyLower (s : String) : String := String.mk (s.toList.map Char.toLower)

/-- Python `str.split("/")`: split at every slash, keeping empty pieces
(so `""` gives `[""]` and `"/"` gives `["", ""]`). -/
def splitSlashAux : List Char → List Char → List String
  | [], acc => [String.mk acc.reverse]
  | c :: rest, acc =>
    if c = '/' then String.mk acc.reverse :: splitSlashAux rest []
    else splitSlashAux rest (c :: acc)

def pySplitOnSlash (s : String) : List String := splitSlashAux s.toList []

/-- The confirmation gate shared by git_remote_sync.py:134-141,
packer.py:193-200 and uploader.py:133-140: the prompt answer is stripped,
lowercased, and compared against "yes". -/
def confirm_proceeds (s : String) : Bool := pyLower (pyStrip s) == "yes"

/-- `os.path.split` for POSIX paths: cut at the last slash; the head keeps
no trailing slashes unless it consists only of slashes.  `os.path.dirname`
is the first component, `os.path.basename` the second. -/
def pySplitPath (p : String) : String × String :=
  let cs := p.toList
  let tail := (cs.reverse.takeWhile (fun c => c != '/')).reverse
  let head := cs.take (cs.length - tail.length)
  let head2 := if head.all (fun c => c == '/') then head
               else (head.reverse.dropWhile (fun c => c == '/')).reverse
  (String.mk head2, String.mk tail)

/-! ## Packer (packer.py) -/

/-- Result of one `subprocess.run` invocation of git. -/
structure ProcResult where
  returncode : Int
  stdout : String
  stderr : String
deriving DecidableEq

/-- packer.py:37-59 `get_file_from_git`: return the captured stdout as the
file content, or `none` whenever the `git show` subprocess exited
non-zero. -/
def get_file_from_git (r : ProcResult) : Option String :=
  if r.returncode ≠ 0 then none else some r.stdout

/-- The manifest document built at packer.py:110-113 and extended at
packer.py:133: a resolved revision plus an ordered mapping from numbered
keys to original relative paths (Python dicts preserve insertion order). -/
structure Manifest where
  packageHash : String
  files : List (String × String)
deriving DecidableEq

/-- JSON escaping of one character as done by `json.dump` with its default
`ensure_ascii=True`: named escapes for the usual control characters, plain
text for printable ASCII, and `\uXXXX` (with surrogate pairs beyond the
BMP) for everything else. -/
def hexDigit (n : Nat) : Char :=
  if n < 10 then Char.ofNat (48 + n) else Char.ofNat (87 + n)

def hex4 (n : Nat) : String :=
  String.mk [hexDigit (n / 4096 % 16), hexDigit (n / 256 % 16),
             hexDigit (n / 16 % 16), hexDigit (n % 16)]

def jsonEscapeChar (c : Char) : String :=
  if c = '\\' then "\\\\"
  else if c = '"' then "\\\""
  else if c = '\x08' then "\\b"
  else if c = '\x0c' then "\\f"
  else if c = '\n' then "\\n"
  else if c = '\x0d' then "\\r"
  else if c = '\t' then "\\t"
  else if 0x20 ≤ c.toNat && c.toNat ≤ 0x7e then String.mk [c]
  else if c.toNat < 0x10000 then "\\u" ++ hex4 c.toNat
  else
    "\\u" ++ hex4 (0xd800 + (c.toNat - 0x10000) / 0x400) ++
    "\\u" ++ hex4 (0xdc00 + (c.toNat - 0x10000) % 0x400)

def jsonString (s : String) : String :=
  "\"" ++ String.join (s.toList.map jsonEscapeChar) ++ "\""

/-- The inner files object as `json.dump(..., indent=4)` renders it at
nesting depth one. -/
def renderFiles (fs : List (String × String)) : String :=
  match fs with
  | [] => "\x7b\x7d"
  | _ => "\x7b\n" ++
      String.intercalate ",\n"
        (fs.map (fun kv => "        " ++ jsonString kv.1 ++ ": " ++ jsonString kv.2)) ++
      "\n    \x7d"

/-- The serialized bytes of the upload specification file written at
packer.py:138-141 by `json.dump(upload_spec, f, indent=4)`. -/
def renderManifest (m : Manifest) : String :=
  "\x7b\n    " ++ jsonString "package_hash" ++ ": " ++ jsonString m.packageHash ++
  ",\n    " ++ jsonString "files" ++ ": " ++ renderFiles m.files ++ "\n\x7d"

def UPLOAD_SPEC_FILE : String := "upload-spec.json"

/-- Everything `create_upload_package` leaves in the freshly recreated
package directory, plus the console warnings it printed: `staged` is the
ordered list of numbered files with their contents, `specText` the bytes
of the specification file. -/
structure PackResult where
  manifest : Manifest
  staged : List (String × String)
  warnings : List String
  specText : String
deriving DecidableEq

/-- The repository state the packer depends on: the `git show` content
oracle for the chosen revision and the `git rev-parse` resolution of the
revision alias (packer.py:63-82; `none` models a `CalledProcessError`). -/
structure PackEnv where
  fetch : String → Option String
  resolve : Option String

/-- The per-path loop of packer.py:116-136: on a retrieval miss record a
warning and continue without consuming a key; on success stage the content
under the current counter value, record the mapping, and increment. -/
def packLoop (fetch : String → Option String) :
    Nat → List String → List (String × String) × List (String × String) × List String
  | _, [] => ([], [], [])
  | c, p :: rest =>
    match fetch p with
    | none =>
      ((packLoop fetch c rest).1, (packLoop fetch c rest).2.1,
       p :: (packLoop fetch c rest).2.2)
    | some content =>
      ((toString c, p) :: (packLoop fetch (c+1) rest).1,
       (toString c, content) :: (packLoop fetch (c+1) rest).2.1,
       (packLoop fetch (c+1) rest).2.2)

/-- packer.py:86-148 `create_upload_package`: recreate the package
directory, resolve the revision alias (raising when resolution yields
nothing), run the numbering loop from counter 1, and write the
specification file. -/
def create_upload_package (env : PackEnv) (file_list : List String) :
    Except String PackResult :=
  match env.resolve with
  | none => Except.error "Could not resolve commit hash"
  | some h =>
    if h = "" then Except.error "Could not resolve commit hash"
    else
      Except.ok
        { manifest := { packageHash := h, files := (packLoop env.fetch 1 file_list).1 }
          staged := (packLoop env.fetch 1 file_list).2.1
          warnings := (packLoop env.fetch 1 file_list).2.2
          specText := renderManifest
            { packageHash := h, files := (packLoop env.fetch 1 file_list).1 } }

/-- Contents of the package directory as the uploader sees it on disk:
the numbered files plus the specification file itself. -/
def packageDirFiles (r : PackResult) : List (String × String) :=
  r.staged ++ [(UPLOAD_SPEC_FILE, r.specText)]

/-- The key sequence `[toString c, toString (c+1), ...]` of length `n`:
the manifest keys the packer assigns starting from counter `c`. -/
def seqKeys : Nat → Nat → List String
  | _, 0 => []
  | c, n+1 => toString c :: seqKeys (c+1) n

/-! ## Uploader (uploader.py) -/

/-- A JSON value as far as the upload specification is concerned: the
documents the tool reads and writes only contain strings and string-keyed
objects (in insertion order).  The uploader iterates `.items()` of the
top-level object, so values of entries may themselves be objects. -/
inductive JVal where
  | str : String → JVal
  | obj : List (String × JVal) → JVal

/-- The document form of a manifest, as written by the packer and parsed
back by `json.load` in the uploader: a two-entry object whose iteration
order is `package_hash` then `files`. -/
def manifestDoc (m : Manifest) : List (String × JVal) :=
  [("package_hash", JVal.str m.packageHash),
   ("files", JVal.obj (m.files.map (fun kv => (kv.1, JVal.str kv.2))))]

/-- Lookup of a local file's content by name (`os.path.isfile` plus
reading, over the package directory's contents). -/
def lookupFile (pkg : List (String × String)) (name : String) : Option String :=
  (pkg.find? (fun kv => kv.1 == name)).map (fun kv => kv.2)

/-- The observable state of the FTP server plus the control connection's
working directory.  Directories and the working directory are absolute
segment paths; `stored` records `STOR` results in order; `storFail` lists
the (directory, filename) pairs on which `STOR` raises. -/
structure FtpState where
  dirs : List (List String)
  stored : List (List String × String × String)
  cwd : List String
  storFail : List (List String × String)
deriving DecidableEq

/-- `ftp.mkd(d)` relative to the working directory; the caller at
uploader.py:64-68 swallows every failure, so only the success effect is
kept: a directory that does not yet exist is created. -/
def mkd (st : FtpState) (d : String) : FtpState :=
  if st.cwd ++ [d] ∈ st.dirs then st
  else { st with dirs := st.dirs ++ [st.cwd ++ [d]] }

/-- `ftp.cwd(d)` one segment down: fails when the directory is absent. -/
def cwdInto (st : FtpState) (d : String) : Option FtpState :=
  if st.cwd ++ [d] ∈ st.dirs then some { st with cwd := st.cwd ++ [d] }
  else none

/-- `ftp.cwd(ftp_target_dir)` back to the absolute target directory:
fails when that directory is absent. -/
def cwdAbs (st : FtpState) (root : List String) : Option FtpState :=
  if root ∈ st.dirs then some { st with cwd := root } else none

/-- `ftp.storbinary("STOR " + name, f)` in the working directory. -/
def stor (st : FtpState) (name content : String) : Option FtpState :=
  if (st.cwd, name) ∈ st.storFail then none
  else some { st with stored := st.stored ++ [(st.cwd, name, content)] }

/-- The directory-creation walk of uploader.py:62-69: for each nonempty
segment, attempt `mkd` ignoring failure, then `cwd` into it; a `cwd`
failure raises, leaving the connection in the state reached so far
(second component `false`). -/
def navCreate : FtpState → List String → FtpState × Bool
  | st, [] => (st, true)
  | st, d :: rest =>
    match cwdInto (mkd st d) d with
    | none => (mkd st d, false)
    | some st2 => navCreate st2 rest

/-- The body of the per-entry loop, uploader.py:44-82: skip when the named
local file is missing; `os.path.dirname` raises `TypeError` on a non-string
value (caught by the per-entry handler before any FTP traffic); otherwise
create-and-enter the directory segments, store under the basename, count
the upload, and return to the target directory.  The second component
records whether `uploaded_count` was incremented; every exception is
caught by the handler at uploader.py:81-82, which keeps the connection
state reached at the point of failure. -/
def entryNav (st : FtpState) (targetPath : String) : FtpState × Bool :=
  if (pySplitPath targetPath).1 = "" then (st, true)
  else navCreate st ((pySplitOnSlash (pySplitPath targetPath).1).filter (fun d => d != ""))

/-- uploader.py:71-79: store under the basename, then return to the
target directory; `uploaded_count` is incremented between the two, so a
failing return-`cwd` still counts the upload. -/
def entryStore (root : List String) (st : FtpState) (name content : String) :
    FtpState × Bool :=
  match stor st name content with
  | none => (st, false)
  | some st2 =>
    match cwdAbs st2 root with
    | none => (st2, true)
    | some st3 => (st3, true)

def processEntry (root : List String) (pkg : List (String × String))
    (st : FtpState) (e : String × JVal) : FtpState × Bool :=
  match lookupFile pkg e.1 with
  | none => (st, false)
  | some content =>
    match e.2 with
    | JVal.obj _ => (st, false)
    | JVal.str targetPath =>
      match entryNav st targetPath with
      | (st1, false) => (st1, false)
      | (st1, true) => entryStore root st1 (pySplitPath targetPath).2 content

/-- The per-entry loop over the parsed specification document's items,
uploader.py:43-82.  Besides the final state and the upload count it
returns, for analysis, the working directory at the start of each
iteration. -/
def uploadLoop (root : List String) (pkg : List (String × String)) :
    FtpState → List (String × JVal) → FtpState × Nat × List (List String)
  | st, [] => (st, 0, [])
  | st, e :: rest =>
    ((uploadLoop root pkg (processEntry root pkg st e).1 rest).1,
     (if (processEntry root pkg st e).2 then 1 else 0) +
       (uploadLoop root pkg (processEntry root pkg st e).1 rest).2.1,
     st.cwd :: (uploadLoop root pkg (processEntry root pkg st e).1 rest).2.2)

/-- Everything observable about one `upload_via_ftp` call: the raised or
normal result, the final server state, the count it reports, whether
`ftp.quit()` ran, and the working directory at the start of each loop
iteration. -/
structure UploadOutcome where
  result : Except String Unit
  server : FtpState
  uploadedCount : Nat
  quitCalled : Bool
  startWds : List (List String)

/-- uploader.py:11-87 `upload_via_ftp`: raise when the specification file
is missing; return early (never connecting) on an empty document; connect,
log in and change to the target directory, raising on failure — `quit` is
only reached from inside the `try`/`finally` around the loop, which no
exception escapes because the per-entry handler catches them all. -/
def upload_via_ftp (spec : Option (List (String × JVal)))
    (pkg : List (String × String)) (connectOk loginOk : Bool)
    (server : FtpState) (root : List String) : UploadOutcome :=
  match spec with
  | none => ⟨Except.error "Upload specification file not found", server, 0, false, []⟩
  | some doc =>
    if doc.isEmpty then ⟨Except.ok (), server, 0, false, []⟩
    else if connectOk = false then ⟨Except.error "connection failed", server, 0, false, []⟩
    else if loginOk = false then ⟨Except.error "login failed", server, 0, false, []⟩
    else if root ∈ server.dirs then
      ⟨Except.ok (),
       (uploadLoop root pkg { server with cwd := root } doc).1,
       (uploadLoop root pkg { server with cwd := root } doc).2.1,
       true,
       (uploadLoop root pkg { server with cwd := root } doc).2.2⟩
    else ⟨Except.error "cwd failed", server, 0, false, []⟩

/-! ## Pipeline (git_remote_sync.py) and script entry points -/

/-- The configuration document's fields as `run_full_pipeline` reads them
(git_remote_sync.py:99-107); absent JSON values read through `.get` are
modelled as the empty string, and `earlier_hash` (which may be JSON null)
as an `Option`. -/
structure Config where
  repoPath : String
  earlierHash : Option String
  ftpHost : String
  ftpUser : String
  ftpPass : String
  ftpTargetDir : String
deriving DecidableEq

/-- Python truthiness of a possibly-null string. -/
def optTruthy : Option String → Bool
  | none => false
  | some s => s != ""

/-- Everything observable about one `run_full_pipeline` call: its boolean
result, the configuration written back (if the write at
git_remote_sync.py:152-154 was reached), and whether packing and
uploading were invoked. -/
structure PipeOutcome where
  success : Bool
  configWrite : Option Config
  packCalled : Bool
  uploadCalled : Bool
deriving DecidableEq

/-- git_remote_sync.py:97-161 `run_full_pipeline`: validate configuration
parameters, default the prompted hashes, list the changed files, stop
cleanly when there are none or when confirmation is refused, then pack and
upload; the configuration is rewritten (with the resolved present
revision, possibly null) only after both succeed, and every raising step
is caught at git_remote_sync.py:159-161 without reaching the write. -/
def run_full_pipeline (cfg : Config) (commit1In _commit2In confirmIn : String)
    (diff : Except String (List String)) (penv : PackEnv)
    (finalResolve : Option String) (connectOk loginOk : Bool)
    (server : FtpState) : PipeOutcome :=
  if cfg.repoPath = "" ∨ cfg.ftpHost = "" ∨ cfg.ftpUser = "" ∨
      cfg.ftpPass = "" ∨ cfg.ftpTargetDir = "" then
    ⟨false, none, false, false⟩
  else
    if optTruthy (if pyStrip commit1In = "" then cfg.earlierHash
                  else some (pyStrip commit1In)) = false then
      ⟨false, none, false, false⟩
    else
      match diff with
      | Except.error _ => ⟨false, none, false, false⟩
      | Except.ok changed =>
        if changed.isEmpty then ⟨true, none, false, false⟩
        else if confirm_proceeds confirmIn = false then ⟨true, none, false, false⟩
        else
          match create_upload_package penv changed with
          | Except.error _ => ⟨false, none, true, false⟩
          | Except.ok pr =>
            match (upload_via_ftp (some (manifestDoc pr.manifest))
                    (packageDirFiles pr) connectOk loginOk server
                    [cfg.ftpTargetDir]).result with
            | Except.error _ => ⟨false, none, true, true⟩
            | Except.ok _ =>
              ⟨true, some { cfg with earlierHash := finalResolve }, true, true⟩

/-- Observable outcome of `packer.main` (packer.py:152-214): process exit
code, the `package_hash` written back to the configuration (if reached),
and whether `create_upload_package` was invoked. -/
structure PackerMainOutcome where
  exitCode : Nat
  configWrite : Option String
  packCalled : Bool
deriving DecidableEq

/-- packer.py:152-214 `main`: configuration and hash validation, changed
file listing, the confirmation gate, packaging, and the configuration
update with the resolved hash. -/
def packer_main (configFound : Bool) (repoPath packageHash : String)
    (commit1In _commit2In confirmIn : String)
    (diff : Except String (List String)) (penv : PackEnv) : PackerMainOutcome :=
  if configFound = false then ⟨1, none, false⟩
  else if repoPath = "" then ⟨1, none, false⟩
  else if (if pyStrip commit1In = "" then packageHash else pyStrip commit1In) = "" then
    ⟨1, none, false⟩
  else
    match diff with
    | Except.error _ => ⟨1, none, false⟩
    | Except.ok changed =>
      if changed.isEmpty then ⟨0, none, false⟩
      else if confirm_proceeds confirmIn = false then ⟨0, none, false⟩
      else
        match create_upload_package penv changed with
        | Except.error _ => ⟨1, none, true⟩
        | Except.ok pr => ⟨0, some pr.manifest.packageHash, true⟩

/-- Observable outcome of `uploader.main` (uploader.py:91-148). -/
structure UploaderMainOutcome where
  exitCode : Nat
  uploadCalled : Bool
deriving DecidableEq

/-- uploader.py:91-148 `main`: configuration validation, the existence
checks on the package directory and specification file, the confirmation
gate, and the upload call whose exceptions map to exit code 1. -/
def uploader_main (configFound : Bool)
    (ftpHost ftpUser ftpPass ftpTargetDir : String)
    (pkgDirExists specFileExists : Bool) (specDoc : List (String × JVal))
    (confirmIn : String) (pkg : List (String × String))
    (connectOk loginOk : Bool) (server : FtpState) : UploaderMainOutcome :=
  if configFound = false then ⟨1, false⟩
  else if ftpHost = "" ∨ ftpUser = "" ∨ ftpPass = "" ∨ ftpTargetDir = "" then
    ⟨1, false⟩
  else if pkgDirExists = false then ⟨1, false⟩
  else if specFileExists = false then ⟨1, false⟩
  else if confirm_proceeds confirmIn = false then ⟨0, false⟩
  else
    match (upload_via_ftp (some specDoc) pkg connectOk loginOk server
            [ftpTargetDir]).result with
    | Except.error _ => ⟨1, true⟩
    | Except.ok _ => ⟨0, true⟩

/-! ## Lemmas about the packer loop -/

theorem packLoop_files_fst (fetch : String → Option String) :
    ∀ (fl : List String) (c : Nat),
      ((packLoop fetch c fl).1).map Prod.fst =
        seqKeys c ((fl.filter (fun p => (fetch p).isSome)).length)
  | [], _ => rfl
  | p :: rest, c => by
    cases hf : fetch p with
    | none =>
      simp only [packLoop, hf, List.map_cons, List.filter_cons, Option.isSome_none,
        Bool.false_eq_true, if_false]
      exact packLoop_files_fst fetch rest c
    | some v =>
      simp only [packLoop, hf, List.map_cons, List.filter_cons, Option.isSome_some,
        if_true, List.length_cons, seqKeys]
      exact congrArg _ (packLoop_files_fst fetch rest (c+1))

theorem packLoop_staged_fst (fetch : String → Option String) :
    ∀ (fl : List String) (c : Nat),
      ((packLoop fetch c fl).2.1).map Prod.fst = ((packLoop fetch c fl).1).map Prod.fst
  | [], _ => rfl
  | p :: rest, c => by
    cases hf : fetch p with
    | none =>
      simp only [packLoop, hf]
      exact packLoop_staged_fst fetch rest c
    | some v =>
      simp only [packLoop, hf, List.map_cons]
      exact congrArg _ (packLoop_staged_fst fetch rest (c+1))

theorem packLoop_files_snd (fetch : String → Option String) :
    ∀ (fl : List String) (c : Nat),
      ((packLoop fetch c fl).1).map Prod.snd = fl.filter (fun p => (fetch p).isSome)
  | [], _ => rfl
  | p :: rest, c => by
    cases hf : fetch p with
    | none =>
      simp only [packLoop, hf, List.filter_cons, Option.isSome_none,
        Bool.false_eq_true, if_false]
      exact packLoop_files_snd fetch rest c
    | some v =>
      simp only [packLoop, hf, List.map_cons, List.filter_cons, Option.isSome_some, if_true]
      exact congrArg _ (packLoop_files_snd fetch rest (c+1))

theorem packLoop_warnings (fetch : String → Option String) :
    ∀ (fl : List String) (c : Nat),
      (packLoop fetch c fl).2.2 = fl.filter (fun p => (fetch p).isNone)
  | [], _ => rfl
  | p :: rest, c => by
    cases hf : fetch p with
    | none =>
      simp only [packLoop, hf, List.filter_cons, Option.isNone_none, if_true]
      exact congrArg _ (packLoop_warnings fetch rest c)
    | some v =>
      simp only [packLoop, hf, List.filter_cons, Option.isNone_some,
        Bool.false_eq_true, if_false]
      exact packLoop_warnings fetch rest (c+1)

/-- When the revision alias resolves to a nonempty identifier,
`create_upload_package` succeeds and returns exactly the loop's output. -/
theorem create_upload_package_some (fetch : String → Option String) (h : String)
    (hh : h ≠ "") (fl : List String) :
    create_upload_package ⟨fetch, some h⟩ fl = Except.ok
      { manifest := { packageHash := h, files := (packLoop fetch 1 fl).1 }
        staged := (packLoop fetch 1 fl).2.1
        warnings := (packLoop fetch 1 fl).2.2
        specText := renderManifest
          { packageHash := h, files := (packLoop fetch 1 fl).1 } } := by
  simp [create_upload_package, hh]

/-- Inversion: a successful `create_upload_package` determines every field
of the result from the loop's output. -/
theorem create_upload_package_ok_inv (fetch : String → Option String) (h : String)
    (fl : List String) (r : PackResult)
    (hok : create_upload_package ⟨fetch, some h⟩ fl = Except.ok r) :
    r.manifest.files = (packLoop fetch 1 fl).1 ∧
    r.staged = (packLoop fetch 1 fl).2.1 ∧
    r.warnings = (packLoop fetch 1 fl).2.2 ∧
    r.manifest.packageHash = h := by
  by_cases hh : h = ""
  · simp [create_upload_package, hh] at hok
  · rw [create_upload_package_some fetch h hh fl] at hok
    injection hok with h1
    subst h1
    exact ⟨rfl, rfl, rfl, rfl⟩

/-! ## Sample inputs shared by the concrete instantiations below -/

/-- A content oracle with one retrievable and one missing path. -/
def sampleFetch : String → Option String :=
  fun p => if p = "missing.txt" then none else some ("content-" ++ p)

def samplePackEnv : PackEnv := ⟨sampleFetch, some "R"⟩

def sampleConfig : Config := ⟨"/repo", some "old", "host", "user", "pass", "remote"⟩

/-- A reachable server that already contains the target directory. -/
def sampleServer : FtpState := ⟨[["remote"]], [], [], []⟩

/-- The package `create_upload_package samplePackEnv ["a.txt", "missing.txt"]`
evaluates to. -/
def samplePackResult : PackResult :=
  { manifest := { packageHash := "R", files := [("1", "a.txt")] }
    staged := [("1", "content-a.txt")]
    warnings := ["missing.txt"]
    specText := renderManifest { packageHash := "R", files := [("1", "a.txt")] } }

/-! ## Packer claims -/

/-- C2: for every input list of changed paths, the manifest produced by a
successful `create_upload_package` has key list exactly
`["1", ..., "N"]` (string-encoded integers with no gaps, starting at 1)
where `N` is the number of paths whose content retrieval succeeded;
`N ≤ fl.length`, retrieval misses consume no key, and the staged files'
names are exactly the manifest's keys. -/
theorem pack_manifest_keys_sequential (fetch : String → Option String) (h : String)
    (fl : List String) (r : PackResult)
    (hok : create_upload_package ⟨fetch, some h⟩ fl = Except.ok r) :
    r.manifest.files.map Prod.fst =
      seqKeys 1 ((fl.filter (fun p => (fetch p).isSome)).length) ∧
    (fl.filter (fun p => (fetch p).isSome)).length ≤ fl.length ∧
    r.staged.map Prod.fst = r.manifest.files.map Prod.fst := by
  obtain ⟨h1, h2, _, _⟩ := create_upload_package_ok_inv fetch h fl r hok
  refine ⟨?_, List.length_filter_le _ _, ?_⟩
  · rw [h1, packLoop_files_fst]
  · rw [h1, h2, packLoop_staged_fst]

theorem pack_manifest_keys_sequential_witness :
    samplePackResult.manifest.files.map Prod.fst =
      seqKeys 1 ((["a.txt", "missing.txt"].filter
        (fun p => (sampleFetch p).isSome)).length) ∧
    (["a.txt", "missing.txt"].filter (fun p => (sampleFetch p).isSome)).length ≤
      ["a.txt", "missing.txt"].length ∧
    samplePackResult.staged.map Prod.fst = samplePackResult.manifest.files.map Prod.fst :=
  pack_manifest_keys_sequential sampleFetch "R" ["a.txt", "missing.txt"]
    samplePackResult rfl

/-- C6: every value of a successful `create_upload_package`'s file mapping
is drawn from the input list — the value list is precisely the
subsequence of the input consisting of the successfully retrieved paths,
so relative order of first appearance is preserved. -/
theorem pack_manifest_values_from_input (fetch : String → Option String) (h : String)
    (fl : List String) (r : PackResult)
    (hok : create_upload_package ⟨fetch, some h⟩ fl = Except.ok r) :
    r.manifest.files.map Prod.snd = fl.filter (fun p => (fetch p).isSome) ∧
    (r.manifest.files.map Prod.snd).Sublist fl := by
  obtain ⟨h1, _, _, _⟩ := create_upload_package_ok_inv fetch h fl r hok
  refine ⟨?_, ?_⟩
  · rw [h1, packLoop_files_snd]
  · rw [h1, packLoop_files_snd]
    exact List.filter_sublist fl

theorem pack_manifest_values_from_input_witness :
    samplePackResult.manifest.files.map Prod.snd =
      ["a.txt", "missing.txt"].filter (fun p => (sampleFetch p).isSome) ∧
    (samplePackResult.manifest.files.map Prod.snd).Sublist ["a.txt", "missing.txt"] :=
  pack_manifest_values_from_input sampleFetch "R" ["a.txt", "missing.txt"]
    samplePackResult rfl

/-- C7: a path that cannot be retrieved at the revision does not abort the
packaging run — when the alias resolves, `create_upload_package` still
completes successfully, prints a warning for the path, and omits it from
the manifest's values. -/
theorem pack_skips_missing_file_with_warning (fetch : String → Option String)
    (h : String) (fl : List String) (p : String)
    (hh : h ≠ "") (hp : p ∈ fl) (hmiss : fetch p = none) :
    ∃ r, create_upload_package ⟨fetch, some h⟩ fl = Except.ok r ∧
      p ∈ r.warnings ∧ p ∉ r.manifest.files.map Prod.snd := by
  refine ⟨_, create_upload_package_some fetch h hh fl, ?_, ?_⟩
  · show p ∈ (packLoop fetch 1 fl).2.2
    rw [packLoop_warnings]
    exact List.mem_filter.mpr ⟨hp, by simp [hmiss]⟩
  · show p ∉ ((packLoop fetch 1 fl).1).map Prod.snd
    rw [packLoop_files_snd]
    intro hmem
    have := (List.mem_filter.mp hmem).2
    simp [hmiss] at this

theorem pack_skips_missing_file_with_warning_witness :
    ∃ r, create_upload_package ⟨sampleFetch, some "R"⟩ ["a.txt", "missing.txt"] =
        Except.ok r ∧
      "missing.txt" ∈ r.warnings ∧
      "missing.txt" ∉ r.manifest.files.map Prod.snd :=
  pack_skips_missing_file_with_warning sampleFetch "R" ["a.txt", "missing.txt"]
    "missing.txt" (by decide) (by simp) rfl

/-- C9: packaging is deterministic — two runs of `create_upload_package`
over the same repository state (content oracle and alias resolution) and
the same changed-file list return identical results: identical manifests
including the resolved-revision field, byte-identical serialized
specification files, and identical staged contents under identical
numbered names. -/
theorem pack_deterministic (e1 e2 : PackEnv) (l1 l2 : List String)
    (hf : e1.fetch = e2.fetch) (hr : e1.resolve = e2.resolve) (hl : l1 = l2) :
    create_upload_package e1 l1 = create_upload_package e2 l2 := by
  cases e1
  cases e2
  cases hf
  cases hr
  cases hl
  rfl

theorem pack_deterministic_witness :
    create_upload_package samplePackEnv ["a.txt"] =
      create_upload_package samplePackEnv ["a.txt"] :=
  pack_deterministic samplePackEnv samplePackEnv ["a.txt"] ["a.txt"] rfl rfl rfl

/-- C10: `get_file_from_git` maps every nonzero exit of the `git show`
subprocess to an absent result, and packaging over any such retrieval
oracle still completes successfully whenever the alias resolves — no
retrieval failure can abort the run. -/
theorem retrieval_failure_absent_never_aborts (r : ProcResult)
    (proc : String → ProcResult) (h : String) (fl : List String)
    (hrc : r.returncode ≠ 0) (hh : h ≠ "") :
    get_file_from_git r = none ∧
    ∃ res, create_upload_package ⟨fun p => get_file_from_git (proc p), some h⟩ fl =
      Except.ok res :=
  ⟨by simp [get_file_from_git, hrc],
   ⟨_, create_upload_package_some _ h hh fl⟩⟩

theorem retrieval_failure_absent_never_aborts_witness :
    get_file_from_git ⟨1, "", "fatal: bad object"⟩ = none ∧
    ∃ res, create_upload_package
        ⟨fun p => get_file_from_git ⟨1, "", "fatal: path not found " ++ p⟩, some "R"⟩
        ["a.txt"] = Except.ok res :=
  retrieval_failure_absent_never_aborts ⟨1, "", "fatal: bad object"⟩
    (fun p => ⟨1, "", "fatal: path not found " ++ p⟩) "R" ["a.txt"]
    (by decide) (by decide)

/-! ## Lemmas about the uploader's connection state -/

theorem mkd_dirs_mem (st : FtpState) (d : String) (x : List String)
    (hx : x ∈ st.dirs) : x ∈ (mkd st d).dirs := by
  unfold mkd
  split
  · exact hx
  · exact List.mem_append_left _ hx

theorem cwdInto_dirs (st st2 : FtpState) (d : String)
    (h : cwdInto st d = some st2) : st2.dirs = st.dirs := by
  unfold cwdInto at h
  split at h
  · injection h with h1
    subst h1
    rfl
  · exact absurd h (by simp)

theorem navCreate_dirs_mem (x : List String) :
    ∀ (l : List String) (st : FtpState), x ∈ st.dirs → x ∈ (navCreate st l).1.dirs
  | [], _, hx => hx
  | d :: rest, st, hx => by
    unfold navCreate
    cases hc : cwdInto (mkd st d) d with
    | none => exact mkd_dirs_mem st d x hx
    | some st2 =>
      have h2 : st2.dirs = (mkd st d).dirs := cwdInto_dirs _ _ _ hc
      exact navCreate_dirs_mem x rest st2 (h2 ▸ mkd_dirs_mem st d x hx)

theorem entryNav_dirs_mem (st : FtpState) (tp : String) (x : List String)
    (hx : x ∈ st.dirs) : x ∈ (entryNav st tp).1.dirs := by
  unfold entryNav
  split
  · exact hx
  · exact navCreate_dirs_mem x _ st hx

theorem stor_dirs (st st2 : FtpState) (name content : String)
    (h : stor st name content = some st2) : st2.dirs = st.dirs := by
  unfold stor at h
  split at h
  · exact absurd h (by simp)
  · injection h with h1
    subst h1
    rfl

/-! ## Uploader claims -/

/-- C8: once the per-entry loop has been entered — the specification file
was found and nonempty, the connection, login, and the change to the
target directory all succeeded — `ftp.quit()` is always reached when
`upload_via_ftp` returns, because the loop body's exception handler
catches every per-entry error and the `finally` block closes the
connection however the loop exits. -/
theorem upload_closes_connection_after_loop_entered
    (doc : List (String × JVal)) (pkg : List (String × String))
    (connectOk loginOk : Bool) (server : FtpState) (root : List String)
    (hdoc : doc.isEmpty = false) (hc : connectOk = true) (hl : loginOk = true)
    (hroot : root ∈ server.dirs) :
    (upload_via_ftp (some doc) pkg connectOk loginOk server root).quitCalled = true := by
  subst hc
  subst hl
  simp [upload_via_ftp, hdoc, hroot]

theorem upload_closes_connection_after_loop_entered_witness :
    (upload_via_ftp (some [("1", JVal.str "a.txt")]) [] true true
      sampleServer ["remote"]).quitCalled = true :=
  upload_closes_connection_after_loop_entered [("1", JVal.str "a.txt")] []
    true true sampleServer ["remote"] rfl rfl rfl (by decide)

/-- C4 counterexample: in a run whose first entry fails mid-transfer
(after the directory walk created and entered `b`), the second loop
iteration does not begin with the working directory at the target
directory, refuting the claim that every iteration starts there. -/
theorem upload_cwd_restore_claim_false :
    ¬ ∀ w ∈ (upload_via_ftp
        (some [("1", JVal.str "b/c.txt"), ("2", JVal.str "a.txt")])
        [("1", "x"), ("2", "y")] true true
        ⟨[["t"]], [], [], [(["t", "b"], "c.txt")]⟩ ["t"]).startWds,
      w = ["t"] := by
  decide

/-- C4 amended: the working directory is restored to the target directory
after an entry precisely when that entry's file uploaded successfully
(given the target directory exists on the server, as the initial change
into it established); an entry skipped because its staged file is missing
leaves the connection state unchanged.  After a per-file error the
restore step is never reached, so the next iteration may begin
elsewhere (as the counterexample exhibits). -/
theorem upload_cwd_restored_after_successful_entry (root : List String)
    (pkg : List (String × String)) (st : FtpState) (e : String × JVal)
    (hroot : root ∈ st.dirs) :
    ((processEntry root pkg st e).2 = true → (processEntry root pkg st e).1.cwd = root) ∧
    (lookupFile pkg e.1 = none → processEntry root pkg st e = (st, false)) := by
  constructor
  · intro hup
    unfold processEntry at *
    cases hl : lookupFile pkg e.1 with
    | none => simp [hl] at hup
    | some content =>
      cases he : e.2 with
      | obj m => simp [hl, he] at hup
      | str tp =>
        simp only [hl, he] at hup ⊢
        cases hnav : entryNav st tp with
        | mk st1 b =>
          cases b with
          | false => simp [hnav] at hup
          | true =>
            have hd1 : root ∈ st1.dirs := by
              have := entryNav_dirs_mem st tp root hroot
              rw [hnav] at this
              exact this
            simp only [hnav] at hup ⊢
            unfold entryStore at hup ⊢
            cases hs : stor st1 (pySplitPath tp).2 content with
            | none => simp [hs] at hup
            | some st2 =>
              have hd2 : root ∈ st2.dirs := (stor_dirs st1 st2 _ _ hs) ▸ hd1
              simp only [hs]
              unfold cwdAbs
              rw [if_pos hd2]
  · intro hl
    simp [processEntry, hl]

theorem upload_cwd_restored_after_successful_entry_witness :
    ((processEntry ["remote"] [("1", "x")] sampleServer ("1", JVal.str "a.txt")).2 = true →
      (processEntry ["remote"] [("1", "x")] sampleServer ("1", JVal.str "a.txt")).1.cwd =
        ["remote"]) ∧
    (lookupFile [("1", "x")] "1" = none →
      processEntry ["remote"] [("1", "x")] sampleServer ("1", JVal.str "a.txt") =
        (sampleServer, false)) :=
  upload_cwd_restored_after_successful_entry ["remote"] [("1", "x")] sampleServer
    ("1", JVal.str "a.txt") (by decide)

/-! ## The packed-manifest / uploader composition -/

/-- The repository state of the two-file scenario: `a.txt` and `b/c.txt`
both retrievable at revision `R`. -/
def scenarioEnv : PackEnv :=
  ⟨fun p => if p = "a.txt" then some "A" else if p = "b/c.txt" then some "B" else none,
   some "R"⟩

/-- The package `create_upload_package scenarioEnv ["a.txt", "b/c.txt"]`
evaluates to. -/
def scenarioPack : PackResult :=
  { manifest := { packageHash := "R", files := [("1", "a.txt"), ("2", "b/c.txt")] }
    staged := [("1", "A"), ("2", "B")]
    warnings := []
    specText := renderManifest
      { packageHash := "R", files := [("1", "a.txt"), ("2", "b/c.txt")] } }

/-- C1: against a reachable server holding the target directory, uploading
the very package the packer produced for changed files
`["a.txt", "b/c.txt"]` transfers nothing at all: the loop iterates the
top-level entries of the specification document — `package_hash` and
`files` — neither of which names a staged file, so both are skipped with
a warning; no remote directory is created, nothing is stored, and the
reported upload count is 0, contradicting the claimed transfer of
`a.txt` and `b/c.txt`. -/
theorem upload_of_packed_manifest_transfers_nothing :
    create_upload_package scenarioEnv ["a.txt", "b/c.txt"] = Except.ok scenarioPack ∧
    (upload_via_ftp (some (manifestDoc scenarioPack.manifest))
      (packageDirFiles scenarioPack) true true sampleServer ["remote"]).uploadedCount = 0 ∧
    (upload_via_ftp (some (manifestDoc scenarioPack.manifest))
      (packageDirFiles scenarioPack) true true sampleServer ["remote"]).server.stored = [] ∧
    (upload_via_ftp (some (manifestDoc scenarioPack.manifest))
      (packageDirFiles scenarioPack) true true sampleServer ["remote"]).server.dirs =
      [["remote"]] :=
  ⟨rfl, rfl, rfl, rfl⟩

/-! ## Pipeline claims -/

/-- C3 counterexample: the confirmation answer "YES" is not the exact
string "yes", yet the full pipeline proceeds to packing (and uploading)
rather than cancelling. -/
theorem confirm_nonexact_yes_still_proceeds :
    "YES" ≠ "yes" ∧
    (run_full_pipeline sampleConfig "c1" "" "YES" (Except.ok ["a.txt"])
      samplePackEnv (some "NEW") true true sampleServer).packCalled = true :=
  ⟨by decide, rfl⟩

/-- C3 amended: at every confirmation prompt — the full pipeline's, the
packer's and the uploader's — an answer whose whitespace-stripped,
lowercased form differs from "yes" cancels that step (neither packing nor
uploading is invoked); only answers normalizing to "yes" proceed. -/
theorem confirm_prompts_cancel_unless_normalized_yes (s : String)
    (hs : pyLower (pyStrip s) ≠ "yes") :
    (∀ cfg c1 c2 diff penv fr cOk lOk srv,
      (run_full_pipeline cfg c1 c2 s diff penv fr cOk lOk srv).packCalled = false ∧
      (run_full_pipeline cfg c1 c2 s diff penv fr cOk lOk srv).uploadCalled = false) ∧
    (∀ cf rp ph c1 c2 diff penv,
      (packer_main cf rp ph c1 c2 s diff penv).packCalled = false) ∧
    (∀ cf fh fu fp ft pd sf doc pkg cOk lOk srv,
      (uploader_main cf fh fu fp ft pd sf doc s pkg cOk lOk srv).uploadCalled = false) := by
  have hcp : confirm_proceeds s = false := by
    unfold confirm_proceeds
    exact beq_eq_false_iff_ne.mpr hs
  refine ⟨fun cfg c1 c2 diff penv fr cOk lOk srv => ?_,
    fun cf rp ph c1 c2 diff penv => ?_,
    fun cf fh fu fp ft pd sf doc pkg cOk lOk srv => ?_⟩
  · unfold run_full_pipeline
    simp only [hcp]
    repeat' split
    all_goals simp_all
  · unfold packer_main
    simp only [hcp]
    repeat' split
    all_goals simp_all
  · unfold uploader_main
    simp only [hcp]
    repeat' split
    all_goals simp_all

theorem confirm_prompts_cancel_unless_normalized_yes_witness :
    (run_full_pipeline sampleConfig "c1" "" "no" (Except.ok ["a.txt"])
      samplePackEnv (some "NEW") true true sampleServer).packCalled = false ∧
    (run_full_pipeline sampleConfig "c1" "" "no" (Except.ok ["a.txt"])
      samplePackEnv (some "NEW") true true sampleServer).uploadCalled = false :=
  (confirm_prompts_cancel_unless_normalized_yes "no" (by decide)).1
    sampleConfig "c1" "" (Except.ok ["a.txt"]) samplePackEnv (some "NEW")
    true true sampleServer

/-- C5: the full pipeline rewrites the configuration only after packing
and uploading have both completed — whenever the configuration write is
reached, the changed-file listing, `create_upload_package` and
`upload_via_ftp` on its package all succeeded, and the written
configuration carries the resolved present revision as the new
`earlier_hash`; contrapositively, a failure of any step (including an
unreachable server, a failed login, or a failed change into the target
directory) leaves the configuration unmodified. -/
theorem config_rewritten_only_after_pack_and_upload
    (cfg : Config) (c1 c2 cf : String) (diff : Except String (List String))
    (penv : PackEnv) (fr : Option String) (cOk lOk : Bool) (srv : FtpState)
    (hw : (run_full_pipeline cfg c1 c2 cf diff penv fr cOk lOk srv).configWrite.isSome =
      true) :
    ∃ changed pr, diff = Except.ok changed ∧
      create_upload_package penv changed = Except.ok pr ∧
      (upload_via_ftp (some (manifestDoc pr.manifest)) (packageDirFiles pr)
        cOk lOk srv [cfg.ftpTargetDir]).result = Except.ok () ∧
      (run_full_pipeline cfg c1 c2 cf diff penv fr cOk lOk srv).configWrite =
        some { cfg with earlierHash := fr } := by
  by_cases h1 : (cfg.repoPath = "" ∨ cfg.ftpHost = "" ∨ cfg.ftpUser = "" ∨
      cfg.ftpPass = "" ∨ cfg.ftpTargetDir = "")
  · simp [run_full_pipeline, h1] at hw
  · by_cases h2 : optTruthy (if pyStrip c1 = "" then cfg.earlierHash
        else some (pyStrip c1)) = false
    · simp [run_full_pipeline, h1, h2] at hw
    · cases hd : diff with
      | error e => simp [run_full_pipeline, h1, h2, hd] at hw
      | ok changed =>
        by_cases h3 : changed.isEmpty
        · simp [run_full_pipeline, h1, h2, hd, h3] at hw
        · by_cases h4 : confirm_proceeds cf = false
          · simp [run_full_pipeline, h1, h2, hd, h3, h4] at hw
          · cases h5 : create_upload_package penv changed with
            | error e => simp [run_full_pipeline, h1, h2, hd, h3, h4, h5] at hw
            | ok pr =>
              cases h6 : (upload_via_ftp (some (manifestDoc pr.manifest))
                  (packageDirFiles pr) cOk lOk srv [cfg.ftpTargetDir]).result with
              | error e =>
                simp [run_full_pipeline, h1, h2, hd, h3, h4, h5, h6] at hw
              | ok u =>
                cases u
                exact ⟨changed, pr, rfl, h5, h6,
                  by simp [run_full_pipeline, h1, h2, hd, h3, h4, h5, h6]⟩

theorem config_rewritten_only_after_pack_and_upload_witness :
    ∃ changed pr, (Except.ok ["a.txt"] : Except String (List String)) =
        Except.ok changed ∧
      create_upload_package samplePackEnv changed = Except.ok pr ∧
      (upload_via_ftp (some (manifestDoc pr.manifest)) (packageDirFiles pr)
        true true sampleServer [sampleConfig.ftpTargetDir]).result = Except.ok () ∧
      (run_full_pipeline sampleConfig "c1" "" "yes" (Except.ok ["a.txt"])
        samplePackEnv (some "NEW") true true sampleServer).configWrite =
        some { sampleConfig with earlierHash := some "NEW" } :=
  config_rewritten_only_after_pack_and_upload sampleConfig "c1" "" "yes"
    (Except.ok ["a.txt"]) samplePackEnv (some "NEW") true true sampleServer rfl

end GitRemoteSync
